import Mathlib

/-!
Verification of the entity-component identity/registration layer and the
capability-based behavior-dispatch layer of gz-sim, shallowly embedded in
Lean 4.  The `SystemInternal` record is translated from
`src/src/SystemInternal.hh`; the component identities come from
`src/include/gz/sim/components/LinearVelocityCmd.hh`; the `Sensor` view is
modelled from its declaration header `src/include/ignition/gazebo/Sensor.hh`
and the spec, since its implementation file is not part of the sources;
likewise the component registry and the entity-component store are modelled
from the spec.
-/

namespace GzSim

/-- Entity: opaque numeric identifier (`uint64_t` in the source). -/
abbrev Entity := Nat

/-- Null entity constant (`const Entity kNullEntity{0}`). -/
def kNullEntity : Entity := 0

/-- A behavior unit (a concrete `System` subclass).  The five Booleans record
which of the five optional lifecycle interfaces the concrete class derives
from (`ISystemConfigure`, `ISystemConfigureParameters`, `ISystemPreUpdate`,
`ISystemUpdate`, `ISystemPostUpdate`); `uid` distinguishes distinct unit
objects. -/
structure SystemUnit where
  uid : Nat
  implConfigure : Bool
  implConfigureParameters : Bool
  implPreUpdate : Bool
  implUpdate : Bool
  implPostUpdate : Bool
deriving DecidableEq

/-- The five optional lifecycle interfaces a system may implement. -/
inductive SystemIface where
  | configureI
  | configureParametersI
  | preUpdateI
  | updateI
  | postUpdateI
deriving DecidableEq

/-- Whether the concrete class of the unit derives from the given lifecycle
interface. -/
def SystemUnit.implements (u : SystemUnit) : SystemIface → Bool
  | .configureI => u.implConfigure
  | .configureParametersI => u.implConfigureParameters
  | .preUpdateI => u.implPreUpdate
  | .updateI => u.implUpdate
  | .postUpdateI => u.implPostUpdate

/-- `systemPlugin->QueryInterface<I>()`: yields a pointer to the unit seen
through interface `I` when the concrete class implements `I`, else null. -/
def queryInterface (u : SystemUnit) (i : SystemIface) : Option SystemUnit :=
  if u.implements i then some u else none

/-- `dynamic_cast<I *>(_system.get())`: a cross-cast from the `System` base
pointer, null when the pointer is null or the class does not implement `I`. -/
def dynamicCast (p : Option SystemUnit) (i : SystemIface) : Option SystemUnit :=
  match p with
  | some u => if u.implements i then some u else none
  | none => none

/-- A lifecycle hook invocation, as observed by a recording unit.  The
configure call carries the configuration payload it delivers (the payload
format is opaque; it is modelled as a `Nat`). -/
inductive HookCall where
  | configureCall (payload : Option Nat)
  | configureParametersCall
  | preUpdateCall
  | updateCall
  | postUpdateCall
deriving DecidableEq

/-- `SystemInternal` from `src/src/SystemInternal.hh`: a record holding one
attached behavior unit.  `systemPlugin` is the plugin handle (null unless the
system was loaded from a plugin), `systemShared` the shared-pointer handle
(null unless the system was created at runtime), `system` the base-interface
pointer, then the five resolved hook pointers, the owning `parentEntity`, and
the cached configuration payload `configureSdf`. -/
structure SystemInternal where
  systemPlugin : Option SystemUnit
  systemShared : Option SystemUnit
  system : Option SystemUnit
  configure : Option SystemUnit
  configureParameters : Option SystemUnit
  preupdate : Option SystemUnit
  update : Option SystemUnit
  postupdate : Option SystemUnit
  parentEntity : Entity
  configureSdf : Option Nat
deriving DecidableEq

/-- `SystemInternal::SystemInternal(SystemPluginPtr, Entity)`: every member
is filled by `QueryInterface` on the plugin (the `System` interface is
guaranteed by `SystemPluginPtr`, so `system` is non-null); the constructor
body is empty, so the trace of lifecycle hook calls made during construction
is `[]`. -/
def SystemInternal.fromPlugin (p : SystemUnit) (e : Entity) :
    SystemInternal × List HookCall :=
  ({ systemPlugin := some p
     systemShared := none
     system := some p
     configure := queryInterface p .configureI
     configureParameters := queryInterface p .configureParametersI
     preupdate := queryInterface p .preUpdateI
     update := queryInterface p .updateI
     postupdate := queryInterface p .postUpdateI
     parentEntity := e
     configureSdf := none }, [])

/-- `SystemInternal::SystemInternal(const std::shared_ptr<System> &, Entity)`:
every hook member is filled by `dynamic_cast` from the raw base pointer; the
constructor body is empty, so the construction trace is `[]`. -/
def SystemInternal.fromShared (s : Option SystemUnit) (e : Entity) :
    SystemInternal × List HookCall :=
  ({ systemPlugin := none
     systemShared := s
     system := s
     configure := dynamicCast s .configureI
     configureParameters := dynamicCast s .configureParametersI
     preupdate := dynamicCast s .preUpdateI
     update := dynamicCast s .updateI
     postupdate := dynamicCast s .postUpdateI
     parentEntity := e
     configureSdf := none }, [])

/-- The presence/absence pattern of the five resolved hook pointers, in the
order configure, configureParameters, preupdate, update, postupdate. -/
def SystemInternal.hookTable (r : SystemInternal) : List Bool :=
  [r.configure.isSome, r.configureParameters.isSome, r.preupdate.isSome,
   r.update.isSome, r.postupdate.isSome]

/-- The resolved hook pointer of the record for a given phase. -/
def SystemInternal.hookEntry (r : SystemInternal) : SystemIface → Option SystemUnit
  | .configureI => r.configure
  | .configureParametersI => r.configureParameters
  | .preUpdateI => r.preupdate
  | .updateI => r.update
  | .postUpdateI => r.postupdate

/-- An operation the step driver may perform on a record after construction. -/
inductive SystemOp where
  | configureOp (payload : Nat)
  | reconfigureOp
  | configureParametersOp
  | preUpdateOp
  | updateOp
  | postUpdateOp
deriving DecidableEq

/-- Modelled from the spec: the per-record effect of the step driver
(`SimulationRunner`, not among the sources).  A phase is invoked exactly when
its resolved hook pointer is non-null (absence routes the phase to a skip,
never to an error or a re-probe); `Configure` caches the delivered payload
verbatim in `configureSdf`; a later re-`Configure` replays the cached payload
unchanged; no operation modifies the hook pointers. -/
def SystemInternal.applyOp (r : SystemInternal) :
    SystemOp → SystemInternal × List HookCall
  | .configureOp payload =>
      match r.configure with
      | some _ => ({ r with configureSdf := some payload },
                   [.configureCall (some payload)])
      | none => (r, [])
  | .reconfigureOp =>
      match r.configure with
      | some _ => (r, [.configureCall r.configureSdf])
      | none => (r, [])
  | .configureParametersOp =>
      (r, if r.configureParameters.isSome then [.configureParametersCall] else [])
  | .preUpdateOp =>
      (r, if r.preupdate.isSome then [.preUpdateCall] else [])
  | .updateOp =>
      (r, if r.update.isSome then [.updateCall] else [])
  | .postUpdateOp =>
      (r, if r.postupdate.isSome then [.postUpdateCall] else [])

/-- The record state after the step driver performs a sequence of operations. -/
def SystemInternal.applyOps (r : SystemInternal) : List SystemOp → SystemInternal
  | [] => r
  | op :: ops => ((r.applyOp op).1).applyOps ops

/-- The behavior unit implemented by `src/test/plugins/TestSystem.cc`: it
derives from `System` alone and implements none of the five optional
lifecycle interfaces. -/
def TestSystem : SystemUnit :=
  { uid := 0
    implConfigure := false
    implConfigureParameters := false
    implPreUpdate := false
    implUpdate := false
    implPostUpdate := false }

/-- A component identity: the `(valueType, discriminator)` pair that
distinguishes semantically different data slots sharing one value
representation.  In the source the discriminator is a zero-sized tag class
(e.g. `class LinearVelocityCmdTag`); it is modelled as the tag's name, and
the value type as the name of the stored C++ type. -/
structure ComponentIdentity where
  valueType : String
  discriminator : String
deriving DecidableEq

/-- `components::LinearVelocityCmd` from
`src/include/gz/sim/components/LinearVelocityCmd.hh`:
`Component<math::Vector3d, class LinearVelocityCmdTag>`. -/
def LinearVelocityCmd : ComponentIdentity :=
  { valueType := "gz::math::Vector3d", discriminator := "LinearVelocityCmdTag" }

/-- `components::WorldLinearVelocityCmd` from the same header:
`Component<math::Vector3d, class WorldLinearVelocityCmdTag>`. -/
def WorldLinearVelocityCmd : ComponentIdentity :=
  { valueType := "gz::math::Vector3d",
    discriminator := "WorldLinearVelocityCmdTag" }

/-- Registered name of `LinearVelocityCmd`, from its
`IGN_GAZEBO_REGISTER_COMPONENT` invocation. -/
def LinearVelocityCmdName : String := "ign_gazebo_components.LinearVelocityCmd"

/-- Registered name of `WorldLinearVelocityCmd`, from its
`IGN_GAZEBO_REGISTER_COMPONENT` invocation. -/
def WorldLinearVelocityCmdName : String :=
  "ign_gazebo_components.WorldLinearVelocityCmd"

/-- The value stored in a component instance.  Vector values are exact
triples of integers (enough for the spec's unit-vector examples); poses are
kept opaque since nothing in this layer computes on them. -/
inductive ComponentValue where
  | vec3 (x y z : Int)
  | str (s : String)
  | ent (e : Entity)
  | poseV (p : Nat)
  | marker
deriving DecidableEq

/-- Modelled from the spec: the default value of each value representation
(`Create` constructs a default-valued instance); unknown representations are
data-less markers. -/
def defaultValue (valueType : String) : ComponentValue :=
  if valueType = "gz::math::Vector3d" then .vec3 0 0 0
  else if valueType = "std::string" then .str ""
  else if valueType = "gz::sim::Entity" then .ent kNullEntity
  else if valueType = "gz::math::Pose3d" then .poseV 0
  else .marker

/-- A component instance: one value of its identity's representation. -/
structure ComponentInstance where
  identity : ComponentIdentity
  value : ComponentValue
deriving DecidableEq

/-- Error kinds of the component registry. -/
inductive RegistryError where
  | DuplicateRegistration
  | UnknownComponentName
deriving DecidableEq

/-- Modelled from the spec: the Component Registry (the source's `Factory` is
not among the sources), a mapping from unique names to component
identities. -/
structure Registry where
  entries : List (String × ComponentIdentity)
deriving DecidableEq

/-- The identity registered under a name, if any. -/
def Registry.lookupName (r : Registry) (name : String) :
    Option ComponentIdentity :=
  (r.entries.find? (fun p => decide (p.1 = name))).map Prod.snd

/-- Modelled from the spec: `Register(name, valueType, discriminator)` is a
no-op when an identical identity is already registered under `name`, fails
with `DuplicateRegistration` when `name` is registered under a conflicting
identity, and otherwise adds the entry. -/
def Registry.Register (r : Registry) (name : String) (id : ComponentIdentity) :
    Except RegistryError Registry :=
  match r.lookupName name with
  | some existing =>
      if existing = id then .ok r else .error .DuplicateRegistration
  | none => .ok { entries := (name, id) :: r.entries }

/-- Modelled from the spec: `Create(name)` constructs a default-valued
instance of the registered identity and fails with `UnknownComponentName`
when `name` is unregistered. -/
def Registry.Create (r : Registry) (name : String) :
    Except RegistryError ComponentInstance :=
  match r.lookupName name with
  | some id => .ok { identity := id, value := defaultValue id.valueType }
  | none => .error .UnknownComponentName

/-- Modelled from the spec: `Lookup(valueType, discriminator)` is the inverse
lookup returning the registered name, failing with `UnknownComponentName`
when no such identity is registered. -/
def Registry.Lookup (r : Registry) (valueType discriminator : String) :
    Except RegistryError String :=
  match r.entries.find?
      (fun p => decide (p.2 = ComponentIdentity.mk valueType discriminator)) with
  | some p => .ok p.1
  | none => .error .UnknownComponentName

/-- Well-formedness of a registry, the spec's invariant: names are globally
unique and each `(valueType, discriminator)` pair maps to exactly one name. -/
def Registry.WF (r : Registry) : Prop :=
  (r.entries.map Prod.fst).Nodup ∧ (r.entries.map Prod.snd).Nodup

/-- The registry holding exactly the two identities registered by
`src/include/gz/sim/components/LinearVelocityCmd.hh`. -/
def velocityCmdRegistry : Registry :=
  { entries := [(LinearVelocityCmdName, LinearVelocityCmd),
                (WorldLinearVelocityCmdName, WorldLinearVelocityCmd)] }

/-- Modelled from the spec: the Entity-Component Store (the source's
`EntityComponentManager` is not among the sources), holding one component
instance per `(entity, identity)` key. -/
structure Store where
  comps : List ((Entity × ComponentIdentity) × ComponentValue)
deriving DecidableEq

/-- The store with no components. -/
def Store.empty : Store := { comps := [] }

/-- Modelled from the spec: reading the component value stored at
`(entity, identity)`, absent when no such component is attached. -/
def Store.read (s : Store) (e : Entity) (id : ComponentIdentity) :
    Option ComponentValue :=
  (s.comps.find? (fun p => decide (p.1 = (e, id)))).map Prod.snd

/-- Modelled from the spec: writing a value through an identity replaces the
value stored at exactly the `(entity, identity)` key and leaves every other
key unchanged. -/
def Store.write (s : Store) (e : Entity) (id : ComponentIdentity)
    (v : ComponentValue) : Store :=
  { comps := ((e, id), v) ::
      s.comps.filter (fun p => !decide (p.1 = (e, id))) }

/-- Modelled from the spec: the marker identity carried by sensor entities
(`components::Sensor`, a data-less tag). -/
def SensorComponent : ComponentIdentity :=
  { valueType := "gz::sim::components::NoData", discriminator := "SensorTag" }

/-- Modelled from the spec: the name-attribute identity (`components::Name`,
a string). -/
def NameComponent : ComponentIdentity :=
  { valueType := "std::string", discriminator := "NameTag" }

/-- Modelled from the spec: the pose-attribute identity (`components::Pose`,
a `Pose3d`). -/
def PoseComponent : ComponentIdentity :=
  { valueType := "gz::math::Pose3d", discriminator := "PoseTag" }

/-- Modelled from the spec: the topic-attribute identity
(`components::SensorTopic`, a string). -/
def SensorTopicComponent : ComponentIdentity :=
  { valueType := "std::string", discriminator := "SensorTopicTag" }

/-- Modelled from the spec: the parent-attribute identity
(`components::ParentEntity`, an entity id). -/
def ParentEntityComponent : ComponentIdentity :=
  { valueType := "gz::sim::Entity", discriminator := "ParentEntityTag" }

/-- The `Sensor` entity view from `src/include/ignition/gazebo/Sensor.hh`: a
stateless wrapper holding only the wrapped entity id. -/
structure Sensor where
  id : Entity
deriving DecidableEq

/-- Modelled from the spec and the header contract: `Sensor::Valid` is true
exactly when the wrapped entity currently carries `components::Sensor`. -/
def Sensor.Valid (s : Sensor) (ecm : Store) : Bool :=
  (ecm.read s.id SensorComponent).isSome

/-- Modelled from the spec and the header contract: `Sensor::Name` re-queries
the store and returns the name, or absent when the entity has no
`components::Name`. -/
def Sensor.Name (s : Sensor) (ecm : Store) : Option String :=
  match ecm.read s.id NameComponent with
  | some (.str n) => some n
  | _ => none

/-- Modelled from the spec and the header contract: `Sensor::Pose` returns
the pose, or absent when the entity has no `components::Pose`. -/
def Sensor.Pose (s : Sensor) (ecm : Store) : Option Nat :=
  match ecm.read s.id PoseComponent with
  | some (.poseV p) => some p
  | _ => none

/-- Modelled from the spec and the header contract: `Sensor::Topic` returns
the topic, or absent when the entity has no `components::SensorTopic`. -/
def Sensor.Topic (s : Sensor) (ecm : Store) : Option String :=
  match ecm.read s.id SensorTopicComponent with
  | some (.str t) => some t
  | _ => none

/-- Modelled from the spec and the header contract: `Sensor::Parent` returns
the parent entity, or absent when the entity has no
`components::ParentEntity`. -/
def Sensor.Parent (s : Sensor) (ecm : Store) : Option Entity :=
  match ecm.read s.id ParentEntityComponent with
  | some (.ent p) => some p
  | _ => none

end GzSim

namespace GzSim

theorem isSome_if_some {α : Type} (b : Bool) (a : α) :
    (if b = true then some a else none).isSome = b := by
  cases b <;> rfl

theorem applyOp_hookTable (r : SystemInternal) (op : SystemOp) :
    ((r.applyOp op).1).hookTable = r.hookTable := by
  cases op <;>
    first
      | rfl
      | (cases hc : r.configure <;>
          simp [SystemInternal.applyOp, SystemInternal.hookTable, hc])

theorem applyOps_hookTable (r : SystemInternal) (ops : List SystemOp) :
    (r.applyOps ops).hookTable = r.hookTable := by
  induction ops generalizing r with
  | nil => rfl
  | cons op ops ih =>
      rw [SystemInternal.applyOps, ih, applyOp_hookTable]

theorem fromPlugin_hookTable (u : SystemUnit) (e : Entity) :
    ((SystemInternal.fromPlugin u e).1).hookTable =
      [u.implConfigure, u.implConfigureParameters, u.implPreUpdate,
       u.implUpdate, u.implPostUpdate] := by
  simp [SystemInternal.fromPlugin, SystemInternal.hookTable, queryInterface,
    SystemUnit.implements, isSome_if_some]

theorem fromShared_hookTable (u : SystemUnit) (e : Entity) :
    ((SystemInternal.fromShared (some u) e).1).hookTable =
      [u.implConfigure, u.implConfigureParameters, u.implPreUpdate,
       u.implUpdate, u.implPostUpdate] := by
  simp [SystemInternal.fromShared, SystemInternal.hookTable, dynamicCast,
    SystemUnit.implements, isSome_if_some]

/-- C1: the hook table of a System Capability Record is fixed at construction
to exactly the pattern capability resolution produced there (the unit's five
interface-implementation facts), and no later sequence of step-driver
operations changes it: after any operation sequence the record still reports
that same presence/absence pattern, on both construction paths. -/
theorem hookTable_immutable_after_construction (u : SystemUnit) (e : Entity)
    (ops : List SystemOp) :
    (((SystemInternal.fromPlugin u e).1).applyOps ops).hookTable =
        [u.implConfigure, u.implConfigureParameters, u.implPreUpdate,
         u.implUpdate, u.implPostUpdate] ∧
    (((SystemInternal.fromShared (some u) e).1).applyOps ops).hookTable =
        [u.implConfigure, u.implConfigureParameters, u.implPreUpdate,
         u.implUpdate, u.implPostUpdate] := by
  constructor
  · rw [applyOps_hookTable, fromPlugin_hookTable]
  · rw [applyOps_hookTable, fromShared_hookTable]

/-- C2: constructing a Record over a unit lacking a phase's interface
succeeds (it is total, with the base-interface pointer set) and stores a null
entry for that phase, on both construction paths; a unit implementing zero
hooks yields a valid Record whose five entries are all absent. -/
theorem missing_hook_is_absent_not_error (u : SystemUnit) (e : Entity) :
    ((SystemInternal.fromPlugin u e).1).system = some u ∧
    ((SystemInternal.fromShared (some u) e).1).system = some u ∧
    (∀ i : SystemIface, u.implements i = false →
      ((SystemInternal.fromPlugin u e).1).hookEntry i = none ∧
      ((SystemInternal.fromShared (some u) e).1).hookEntry i = none) ∧
    ((∀ i : SystemIface, u.implements i = false) →
      ((SystemInternal.fromPlugin u e).1).hookTable =
        [false, false, false, false, false]) := by
  refine ⟨rfl, rfl, ?_, ?_⟩
  · intro i hi
    cases i <;>
      simp [SystemInternal.fromPlugin, SystemInternal.fromShared,
        SystemInternal.hookEntry, queryInterface, dynamicCast, hi]
  · intro hall
    have h1 : u.implConfigure = false := hall .configureI
    have h2 : u.implConfigureParameters = false := hall .configureParametersI
    have h3 : u.implPreUpdate = false := hall .preUpdateI
    have h4 : u.implUpdate = false := hall .updateI
    have h5 : u.implPostUpdate = false := hall .postUpdateI
    rw [fromPlugin_hookTable, h1, h2, h3, h4, h5]

/-- Witness for C2 at the concrete `TestSystem` unit, which implements none
of the five lifecycle interfaces. -/
theorem missing_hook_is_absent_not_error_witness :
    ((SystemInternal.fromPlugin TestSystem 7).1).system = some TestSystem ∧
    ((SystemInternal.fromShared (some TestSystem) 7).1).system = some TestSystem ∧
    (∀ i : SystemIface, TestSystem.implements i = false →
      ((SystemInternal.fromPlugin TestSystem 7).1).hookEntry i = none ∧
      ((SystemInternal.fromShared (some TestSystem) 7).1).hookEntry i = none) ∧
    ((∀ i : SystemIface, TestSystem.implements i = false) →
      ((SystemInternal.fromPlugin TestSystem 7).1).hookTable =
        [false, false, false, false, false]) :=
  missing_hook_is_absent_not_error TestSystem 7

/-- C7: for any behavior unit, the plugin-loaded construction path and the
directly-instantiated shared-pointer construction path resolve exactly the
same hook presence/absence pattern and record the same owning entity. -/
theorem plugin_direct_paths_equivalent (u : SystemUnit) (e : Entity) :
    ((SystemInternal.fromPlugin u e).1).hookTable =
      ((SystemInternal.fromShared (some u) e).1).hookTable ∧
    ((SystemInternal.fromPlugin u e).1).parentEntity =
      ((SystemInternal.fromShared (some u) e).1).parentEntity := by
  constructor
  · rw [fromPlugin_hookTable, fromShared_hookTable]
  · rfl

/-- C9: capability resolution treats `ConfigureParameters` independently of
`Configure`: on both paths the record's `configureParameters` entry is
present exactly when the unit implements `ISystemConfigureParameters`,
whatever the `Configure` flag says, and all four combinations of the two
flags are resolved to exactly the corresponding presence pattern. -/
theorem configureParameters_independent_of_configure (u : SystemUnit)
    (e : Entity) (b c : Bool) :
    ((SystemInternal.fromPlugin u e).1).configureParameters =
      (if u.implConfigureParameters then some u else none) ∧
    ((SystemInternal.fromShared (some u) e).1).configureParameters =
      (if u.implConfigureParameters then some u else none) ∧
    (((SystemInternal.fromPlugin ⟨1, b, c, false, false, false⟩ e).1).configure.isSome = b ∧
     ((SystemInternal.fromPlugin ⟨1, b, c, false, false, false⟩ e).1).configureParameters.isSome = c) := by
  refine ⟨rfl, rfl, ?_, ?_⟩ <;>
    simp [SystemInternal.fromPlugin, queryInterface, SystemUnit.implements,
      isSome_if_some]

/-- C10: construction from a non-null handle sets exactly the ownership
handle of its path (the plugin handle on the plugin path, the shared handle
on the direct path, the other one null), points `system` at that same unit,
stores the entity passed in, and invokes no lifecycle hook (empty trace). -/
theorem construction_sets_exactly_one_handle (u : SystemUnit) (e : Entity) :
    ((SystemInternal.fromPlugin u e).1.systemPlugin = some u ∧
     (SystemInternal.fromPlugin u e).1.systemShared = none ∧
     (SystemInternal.fromPlugin u e).1.system = some u ∧
     (SystemInternal.fromPlugin u e).1.parentEntity = e ∧
     (SystemInternal.fromPlugin u e).2 = []) ∧
    ((SystemInternal.fromShared (some u) e).1.systemShared = some u ∧
     (SystemInternal.fromShared (some u) e).1.systemPlugin = none ∧
     (SystemInternal.fromShared (some u) e).1.system = some u ∧
     (SystemInternal.fromShared (some u) e).1.parentEntity = e ∧
     (SystemInternal.fromShared (some u) e).2 = []) :=
  ⟨⟨rfl, rfl, rfl, rfl, rfl⟩, ⟨rfl, rfl, rfl, rfl, rfl⟩⟩

/-- C8: a `Configure` invocation caches the delivered payload verbatim in
`configureSdf`, delivers exactly that payload to the unit, and a second
invocation on the same record delivers the identical cached payload while
leaving the cache unaltered. -/
theorem configure_cached_and_replayed (u : SystemUnit) (e : Entity) (p : Nat)
    (h : u.implConfigure = true) :
    ((((SystemInternal.fromPlugin u e).1).applyOp (.configureOp p)).1.configureSdf
        = some p) ∧
    ((((SystemInternal.fromPlugin u e).1).applyOp (.configureOp p)).2
        = [.configureCall (some p)]) ∧
    (((((SystemInternal.fromPlugin u e).1).applyOp (.configureOp p)).1.applyOp
        .reconfigureOp).2 = [.configureCall (some p)]) ∧
    (((((SystemInternal.fromPlugin u e).1).applyOp (.configureOp p)).1.applyOp
        .reconfigureOp).1.configureSdf = some p) := by
  have hc : ((SystemInternal.fromPlugin u e).1).configure = some u := by
    simp [SystemInternal.fromPlugin, queryInterface, SystemUnit.implements, h]
  simp [SystemInternal.applyOp, hc]

/-- Witness for C8 at a concrete configure-implementing unit and payload 42. -/
theorem configure_cached_and_replayed_witness :
    (SystemUnit.mk 3 true false false false false).implConfigure = true ∧
    (((((SystemInternal.fromPlugin ⟨3, true, false, false, false, false⟩ 5).1).applyOp
        (.configureOp 42)).1.configureSdf = some 42) ∧
     ((((SystemInternal.fromPlugin ⟨3, true, false, false, false, false⟩ 5).1).applyOp
        (.configureOp 42)).2 = [.configureCall (some 42)]) ∧
     (((((SystemInternal.fromPlugin ⟨3, true, false, false, false, false⟩ 5).1).applyOp
        (.configureOp 42)).1.applyOp .reconfigureOp).2 = [.configureCall (some 42)]) ∧
     (((((SystemInternal.fromPlugin ⟨3, true, false, false, false, false⟩ 5).1).applyOp
        (.configureOp 42)).1.applyOp .reconfigureOp).1.configureSdf = some 42)) :=
  ⟨rfl, configure_cached_and_replayed ⟨3, true, false, false, false, false⟩ 5 42 rfl⟩

theorem find_filter_other_key
    (l : List ((Entity × ComponentIdentity) × ComponentValue))
    (k k' : Entity × ComponentIdentity) (hne : k' ≠ k) :
    (l.filter (fun p => !decide (p.1 = k))).find? (fun p => decide (p.1 = k')) =
      l.find? (fun p => decide (p.1 = k')) := by
  induction l with
  | nil => rfl
  | cons hd tl ih =>
      have hkk : ¬k = k' := fun h => hne h.symm
      by_cases h1 : hd.1 = k
      · simp [List.filter_cons, List.find?_cons, h1, hkk, hne, ih]
      · by_cases h2 : hd.1 = k'
        · simp [List.filter_cons, List.find?_cons, h1, h2, hkk, hne]
        · simp [List.filter_cons, List.find?_cons, h1, h2, ih]

theorem read_write_same (s : Store) (e : Entity) (id : ComponentIdentity)
    (v : ComponentValue) :
    (s.write e id v).read e id = some v := by
  simp [Store.write, Store.read, List.find?_cons]

theorem read_write_other (s : Store) (e e' : Entity)
    (id id' : ComponentIdentity) (v : ComponentValue)
    (hne : (e', id') ≠ (e, id)) :
    (s.write e id v).read e' id' = s.read e' id' := by
  have hb : decide ((e, id) = (e', id')) = false :=
    decide_eq_false (fun h => hne h.symm)
  simp only [Store.write, Store.read, List.find?_cons, hb,
    find_filter_other_key s.comps (e, id) (e', id') hne]

/-- C3: writing distinct values through two identities that share a value
type but differ in discriminator, both attached to the same entity, leaves a
read through each identity returning only the value written through it. -/
theorem identity_non_interchangeability (s : Store) (e : Entity)
    (id1 id2 : ComponentIdentity) (v1 v2 : ComponentValue)
    (_hvt : id1.valueType = id2.valueType)
    (hdisc : id1.discriminator ≠ id2.discriminator) :
    ((s.write e id1 v1).write e id2 v2).read e id1 = some v1 ∧
    ((s.write e id1 v1).write e id2 v2).read e id2 = some v2 := by
  have hne : (e, id1) ≠ (e, id2) := by
    intro h
    exact hdisc (congrArg (fun q => q.2.discriminator) h)
  exact ⟨by rw [read_write_other (s.write e id1 v1) e e id2 id1 v2 hne,
            read_write_same],
         read_write_same (s.write e id1 v1) e id2 v2⟩

/-- Witness for C3 at the spec's example: `LinearVelocityCmd` and
`WorldLinearVelocityCmd` both hold a `Vector3d` on entity 1 with values
(0,1,0) and (1,0,0); each read returns its own value. -/
theorem identity_non_interchangeability_witness :
    (LinearVelocityCmd.valueType = WorldLinearVelocityCmd.valueType ∧
     LinearVelocityCmd.discriminator ≠ WorldLinearVelocityCmd.discriminator) ∧
    (((Store.empty.write 1 LinearVelocityCmd (.vec3 0 1 0)).write 1
        WorldLinearVelocityCmd (.vec3 1 0 0)).read 1 LinearVelocityCmd =
          some (.vec3 0 1 0) ∧
     ((Store.empty.write 1 LinearVelocityCmd (.vec3 0 1 0)).write 1
        WorldLinearVelocityCmd (.vec3 1 0 0)).read 1 WorldLinearVelocityCmd =
          some (.vec3 1 0 0)) :=
  ⟨⟨by decide, by decide⟩,
   identity_non_interchangeability Store.empty 1 LinearVelocityCmd
     WorldLinearVelocityCmd (.vec3 0 1 0) (.vec3 1 0 0) (by decide) (by decide)⟩

theorem find_name_of_mem (l : List (String × ComponentIdentity)) (n : String)
    (id : ComponentIdentity) (hnd : (l.map Prod.fst).Nodup)
    (hmem : (n, id) ∈ l) :
    l.find? (fun p => decide (p.1 = n)) = some (n, id) := by
  induction l with
  | nil => cases hmem
  | cons hd tl ih =>
      rw [List.map_cons, List.nodup_cons] at hnd
      rcases List.mem_cons.1 hmem with h | h
      · rw [← h]
        simp [List.find?_cons]
      · have hn : ¬hd.1 = n := by
          intro heq
          exact hnd.1 (heq ▸ List.mem_map_of_mem Prod.fst h)
        simp only [List.find?_cons, decide_eq_true_eq, hn, if_false]
        exact ih hnd.2 h

theorem find_id_of_mem (l : List (String × ComponentIdentity)) (n : String)
    (id : ComponentIdentity) (hnd : (l.map Prod.snd).Nodup)
    (hmem : (n, id) ∈ l) :
    l.find? (fun p => decide (p.2 = id)) = some (n, id) := by
  induction l with
  | nil => cases hmem
  | cons hd tl ih =>
      rw [List.map_cons, List.nodup_cons] at hnd
      rcases List.mem_cons.1 hmem with h | h
      · rw [← h]
        simp [List.find?_cons]
      · have hn : ¬hd.2 = id := by
          intro heq
          exact hnd.1 (heq ▸ List.mem_map_of_mem Prod.snd h)
        simp only [List.find?_cons, decide_eq_true_eq, hn, if_false]
        exact ih hnd.2 h

/-- C4: in a well-formed registry, `Create` on a registered name yields an
instance whose identity's `(valueType, discriminator)`, fed back to the
inverse `Lookup`, returns exactly that name. -/
theorem create_lookup_round_trip (r : Registry) (n : String)
    (id : ComponentIdentity) (hwf : r.WF) (hmem : (n, id) ∈ r.entries) :
    ∃ inst : ComponentInstance, r.Create n = .ok inst ∧
      r.Lookup inst.identity.valueType inst.identity.discriminator = .ok n := by
  have hname : r.lookupName n = some id := by
    unfold Registry.lookupName
    rw [find_name_of_mem r.entries n id hwf.1 hmem]
    rfl
  refine ⟨⟨id, defaultValue id.valueType⟩, ?_, ?_⟩
  · unfold Registry.Create
    rw [hname]
  · show (match r.entries.find? (fun p => decide (p.2 = id)) with
      | some p => Except.ok p.1
      | none => Except.error RegistryError.UnknownComponentName) = Except.ok n
    rw [find_id_of_mem r.entries n id hwf.2 hmem]

/-- Witness for C4 on the registry built by the `LinearVelocityCmd` header:
the round trip through `Create` and `Lookup` returns the registered name. -/
theorem create_lookup_round_trip_witness :
    (velocityCmdRegistry.WF ∧
     (LinearVelocityCmdName, LinearVelocityCmd) ∈ velocityCmdRegistry.entries) ∧
    (∃ inst : ComponentInstance,
      velocityCmdRegistry.Create LinearVelocityCmdName = .ok inst ∧
      velocityCmdRegistry.Lookup inst.identity.valueType
        inst.identity.discriminator = .ok LinearVelocityCmdName) :=
  ⟨⟨⟨by decide, by decide⟩, by decide⟩,
   create_lookup_round_trip velocityCmdRegistry LinearVelocityCmdName
     LinearVelocityCmd ⟨by decide, by decide⟩ (by decide)⟩

/-- C5: `Register` is a no-op returning the unchanged registry when the name
is already registered under an identical identity, fails with exactly
`DuplicateRegistration` when the name is registered under a conflicting
identity, and `Create` on an unregistered name fails with exactly
`UnknownComponentName`. -/
theorem registry_error_behavior (r : Registry) (n : String)
    (id idc : ComponentIdentity) :
    (r.lookupName n = some id → r.Register n id = .ok r) ∧
    (r.lookupName n = some id → idc ≠ id →
      r.Register n idc = .error .DuplicateRegistration) ∧
    (r.lookupName n = none → r.Create n = .error .UnknownComponentName) := by
  refine ⟨?_, ?_, ?_⟩
  · intro h
    unfold Registry.Register
    rw [h]
    simp
  · intro h hne
    have hni : ¬(id = idc) := fun heq => hne heq.symm
    unfold Registry.Register
    rw [h]
    exact if_neg hni
  · intro h
    unfold Registry.Create
    rw [h]

/-- Witness for C5: identical re-registration of `LinearVelocityCmd` is a
no-op, conflicting re-registration under its name is a
`DuplicateRegistration`, and `Create` of an unregistered name is an
`UnknownComponentName`. -/
theorem registry_error_behavior_witness :
    (velocityCmdRegistry.lookupName LinearVelocityCmdName =
        some LinearVelocityCmd ∧
     velocityCmdRegistry.Register LinearVelocityCmdName LinearVelocityCmd =
        .ok velocityCmdRegistry) ∧
    (WorldLinearVelocityCmd ≠ LinearVelocityCmd ∧
     velocityCmdRegistry.Register LinearVelocityCmdName WorldLinearVelocityCmd =
        .error .DuplicateRegistration) ∧
    (velocityCmdRegistry.lookupName "unregistered" = none ∧
     velocityCmdRegistry.Create "unregistered" =
        .error .UnknownComponentName) :=
  ⟨⟨by decide,
    (registry_error_behavior velocityCmdRegistry LinearVelocityCmdName
      LinearVelocityCmd WorldLinearVelocityCmd).1 (by decide)⟩,
   ⟨by decide,
    (registry_error_behavior velocityCmdRegistry LinearVelocityCmdName
      LinearVelocityCmd WorldLinearVelocityCmd).2.1 (by decide) (by decide)⟩,
   ⟨by decide,
    (registry_error_behavior velocityCmdRegistry "unregistered"
      LinearVelocityCmd WorldLinearVelocityCmd).2.2 (by decide)⟩⟩

/-- C6: each `Sensor` accessor returns absent, without error, whenever the
wrapped entity lacks the corresponding component in the store, and `Valid`
is true exactly when the entity carries the sensor marker component. -/
theorem sensor_accessors_absent_on_missing (s : Sensor) (ecm : Store) :
    (ecm.read s.id NameComponent = none → s.Name ecm = none) ∧
    (ecm.read s.id PoseComponent = none → s.Pose ecm = none) ∧
    (ecm.read s.id SensorTopicComponent = none → s.Topic ecm = none) ∧
    (ecm.read s.id ParentEntityComponent = none → s.Parent ecm = none) ∧
    (s.Valid ecm = true ↔ (ecm.read s.id SensorComponent).isSome = true) := by
  refine ⟨?_, ?_, ?_, ?_, Iff.rfl⟩ <;> intro h <;>
    simp [Sensor.Name, Sensor.Pose, Sensor.Topic, Sensor.Parent, h]

/-- Witness for C6 on the empty store: every accessor of a sensor view over
entity 5 is absent and the view is not valid. -/
theorem sensor_accessors_absent_on_missing_witness :
    (Store.empty.read 5 NameComponent = none →
      (Sensor.mk 5).Name Store.empty = none) ∧
    (Store.empty.read 5 PoseComponent = none →
      (Sensor.mk 5).Pose Store.empty = none) ∧
    (Store.empty.read 5 SensorTopicComponent = none →
      (Sensor.mk 5).Topic Store.empty = none) ∧
    (Store.empty.read 5 ParentEntityComponent = none →
      (Sensor.mk 5).Parent Store.empty = none) ∧
    ((Sensor.mk 5).Valid Store.empty = true ↔
      (Store.empty.read 5 SensorComponent).isSome = true) :=
  sensor_accessors_absent_on_missing (Sensor.mk 5) Store.empty

end GzSim
